/-
Verification of the XplaneNoaaWeather weather state engine.

Shallow embedding of the per-frame weather consumption code in
src/PI_noaaWeather.py (class Weather: setWinds, transWindLayer,
interpolateWindLayer, setTurbulence, setClouds, weatherClient, cc2xp)
and of the request dispatch in src/noaweather/weatherServer.py
(clientHandler.handle).

Numeric values are modelled as exact rationals (the Python code uses
floats; none of the properties below depends on rounding).  Python
dictionaries that the code only reads and writes by key are modelled as
functions or association lists; the in-place mutation of the wind-layer
"extras" dictionaries (which are shared between the snapshot and the
working list, because setWinds only copies the outer list) is modelled
explicitly: the embedded setWinds returns the snapshot's wind-layer list
as it stands after the call.

The helper module noaweather/c.py (conversions, transitions, random
pattern, cosine interpolation) is part of the repository but is not under
src/; its operations are modelled from the spec and each such definition
carries a doc comment saying so.
-/

import Mathlib

namespace NoaaWeather

/-- A wind layer [alt, hdg, speed, extra] as used by Weather.setWinds
(src/PI_noaaWeather.py line 351: "layer array: [alt, hdg, speed, extra]").
The extras dictionary is an open string-keyed mapping; its values
(gust, variation, temp, dew, and the metar marker True, which Python
treats as the number 1) are modelled as rationals. -/
structure WindLayer where
  alt : ℚ
  hdg : ℚ
  speed : ℚ
  extra : List (String × ℚ)
deriving DecidableEq

instance : Inhabited WindLayer := ⟨⟨0, 0, 0, []⟩⟩

/-- Extras dictionary type: insertion-ordered association list, mirroring a
Python dict string → number. -/
abbrev Extra := List (String × ℚ)

/-- Dictionary lookup on an extras mapping. -/
def elookup (e : Extra) (k : String) : Option ℚ :=
  (e.find? (fun p => p.1 == k)).map (fun p => p.2)

/-- Python `k in d` membership test on an extras mapping. -/
def emem (e : Extra) (k : String) : Bool :=
  (elookup e k).isSome

/-- Python `d[k] = v`: overwrite in place if the key exists, else append
(Python dicts preserve insertion order). -/
def eset (e : Extra) (k : String) (v : ℚ) : Extra :=
  if emem e k then e.map (fun p => if p.1 == k then (k, v) else p) else e ++ [(k, v)]

/-- Transition-reference keys: every reference id the embedded code builds
has the shape "layerid-field" (for example "1-hdg", "0-metar_wind_alt"),
so keys are modelled as (id, field) pairs. -/
abbrev TKey := String × String

/-- The transition reference table c.transrefs, modelled as a partial map. -/
abbrev TransRefs := TKey → Option ℚ

/-- The empty transition reference table. -/
def emptyRefs : TransRefs := fun _ => none

/-- Store a value under a key in the transition reference table. -/
def tset (r : TransRefs) (k : TKey) (v : ℚ) : TransRefs :=
  fun k2 => if k2 = k then some v else r k2

/-- Modelled from the spec: c.transition (noaweather/c.py is not under
src/).  Spec section 4.1: "On first call for a key, returns value directly
and records it.  On subsequent calls, moves the stored value toward value
by at most rate * elapsed_s (linear), returns the moved value, and stores
it." -/
def transition (r : TransRefs) (v : ℚ) (k : TKey) (elapsed rate : ℚ) : ℚ × TransRefs :=
  match r k with
  | none => (v, tset r k v)
  | some s =>
    let step := rate * elapsed
    let nv := if s < v then min (s + step) v else max (s - step) v
    (nv, tset r k nv)

/-- Reduce an angle to [0, 360) (used to model heading arithmetic mod 360). -/
def hdgMod (x : ℚ) : ℚ := x - 360 * (⌊x / 360⌋ : ℤ)

/-- Signed shortest-arc angular distance from src to dst, in (-180, 180]. -/
def shortArc (src dst : ℚ) : ℚ := hdgMod (dst - src + 180) - 180

/-- Modelled from the spec: c.transitionHdg (noaweather/c.py is not under
src/).  Spec section 4.1: "transitionHeading behaves identically but
measures angular distance on a circle of period 360 degrees and always
takes the shorter arc." -/
def transitionHdg (r : TransRefs) (v : ℚ) (k : TKey) (elapsed rate : ℚ) : ℚ × TransRefs :=
  match r k with
  | none => (v, tset r k v)
  | some s =>
    let d := shortArc s v
    let step := rate * elapsed
    let nv := if |d| ≤ step then hdgMod (s + d) else hdgMod (s + (if 0 ≤ d then step else -step))
    (nv, tset r k nv)

/-- Modelled from the spec: c.transitionClearReferences (noaweather/c.py is
not under src/).  Spec section 4.1: "A companion operation clears all state
for keys not in a caller-supplied exclusion set"; the exclusion set holds
layer ids (the part of the reference id before the dash). -/
def transitionClearRefs (r : TransRefs) (exclude : List String) : TransRefs :=
  fun k => if exclude.contains k.1 then r k else none

/-- Modelled from the spec: c.randPattern (noaweather/c.py is not under
src/).  Spec section 4.1: it "perturbs a target value with bounded random
walk" and "the random source must be injectable/seedable".  We model the
neutral draw of that injectable source (zero perturbation), under which
the pattern returns its target; no claim settled here depends on the
perturbation. -/
def randPattern (v : ℚ) : ℚ := v

/-- Modelled from the spec: c.interpolate (noaweather/c.py is not under
src/).  Spec section 4.2: "speed and scalar extras via linear interpolation
weighted by altitude position between bottom and top". -/
def interpolate (t1 t2 alt1 alt2 alt : ℚ) : ℚ :=
  if alt1 = alt2 then t1 else t1 + (alt - alt1) * (t2 - t1) / (alt2 - alt1)

/-- Modelled from the spec: the exponential-cosine blend weight used by
c.expoCosineInterpolate and c.expoCosineInterpolateHeading (noaweather/c.py
is not under src/).  The spec pins down only qualitative properties: the
blend is "chosen specifically so heading blends smoothly without
overshooting past either endpoint's direction" (section 4.2), so for an
interior position and a positive exponent the weight is strictly between
0 and 1.  The development is parametric over any weight with these
properties; the real cosine weight (1 - cos(pi * x^e))/2 satisfies them. -/
structure BlendWeight where
  w : ℚ → ℚ → ℚ
  w_pos : ∀ x e : ℚ, 0 < x → x < 1 → 0 < e → 0 < w x e
  w_lt_one : ∀ x e : ℚ, 0 < x → x < 1 → 0 < e → w x e < 1

/-- The linear weight, a concrete executable instance of the blend-weight
interface (used to evaluate the pipeline on concrete inputs). -/
def linearBlend : BlendWeight where
  w := fun x _ => x
  w_pos := fun _ _ hx _ _ => hx
  w_lt_one := fun _ _ _ hx _ => hx

/-- Modelled from the spec: c.expoCosineInterpolate (noaweather/c.py is not
under src/): value blend between two layers by the exponential-cosine
weight at the altitude position between alt1 and alt2. -/
def expoCosineInterpolate (B : BlendWeight) (t1 t2 alt1 alt2 alt e : ℚ) : ℚ :=
  if alt1 = alt2 then t1
  else t1 + (t2 - t1) * B.w ((alt - alt1) / (alt2 - alt1)) e

/-- Modelled from the spec: c.expoCosineInterpolateHeading (noaweather/c.py
is not under src/): same blend applied to the shortest angular arc from t1
to t2, result reduced to [0, 360). -/
def expoCosineInterpolateHeading (B : BlendWeight) (t1 t2 alt1 alt2 alt e : ℚ) : ℚ :=
  if alt1 = alt2 then t1
  else hdgMod (t1 + shortArc t1 t2 * B.w ((alt - alt1) / (alt2 - alt1)) e)

/-- Modelled from the spec: the default exponent of c.expoCosineInterpolate
(used by the extras-interpolation loop, src/PI_noaaWeather.py line 386,
which passes no exponent).  Its value is not specified and no claim
settled here depends on it. -/
def expoDefault : ℚ := 3

/-- Modelled from the spec: c.limit(value, max) — clamp from above (spec
section 7: "values are clamped to documented safe bounds"). -/
def climit (v maxv : ℚ) : ℚ := min v maxv

/-- Modelled from the spec: c.limit(value, max, min) — clamp into
[min, max]. -/
def climit3 (v maxv minv : ℚ) : ℚ := max minv (min v maxv)

/-- Modelled from the spec: c.f2m, feet to metres (0.3048 m per foot). -/
def f2m (ft : ℚ) : ℚ := ft * (381 / 1250)

/-- Configuration knobs read by the embedded code (spec section 6). -/
structure WConf where
  metar_agl_limit : ℚ
  metar_distance_limit : ℚ
  windHdgTransSpeed : ℚ
  windGustTransSpeed : ℚ
  max_cloud_height : ℚ
  turbulence_probability : ℚ
deriving DecidableEq

/-- The metar section of a weather snapshot (src/PI_noaaWeather.py reads
elevation, distance, wind, variable_wind, temperature and clouds from it;
a missing key is modelled as none; a temperature entry that Python holds
as False is the inner none). -/
structure MetarData where
  elevation : ℚ
  distance : Option ℚ
  wind : Option (ℚ × ℚ × ℚ)
  variable_wind : Option (ℚ × ℚ)
  temperature : Option (Option ℚ × Option ℚ)
  clouds : Option (List (ℚ × String × ℚ))
deriving DecidableEq

/-- The parts of a weather snapshot consumed by the embedded operations:
the metar section (none models a snapshot without a metar key) and the
gfs cloud bands [base, top, coverPercent]. -/
structure WeatherData where
  metar : Option MetarData
  gfsClouds : List (ℚ × ℚ × ℚ)
deriving DecidableEq

/-- True when the snapshot has a metar section with a wind entry — the
exact guard of the synthetic-layer branch (src/PI_noaaWeather.py line
213). -/
def metarHasWind (wd : WeatherData) : Bool :=
  match wd.metar with
  | some m => m.wind.isSome
  | none => false

/-- The transitioned altitude of the synthetic metar surface layer together
with the updated reference table (src/PI_noaaWeather.py lines 230-231:
alt = elevation + metar_agl_limit, then c.transition(alt,
'0-metar_wind_alt', elapsed, 0.3048)). -/
def synthAltPair (conf : WConf) (m : MetarData) (elapsed : ℚ) (r : TransRefs) : ℚ × TransRefs :=
  transition r (m.elevation + conf.metar_agl_limit) ("0", "metar_wind_alt") elapsed (381 / 1250)

/-- Tag a wind-layer list with its original snapshot indices, starting at
i; the tag none marks the synthetic metar layer, which is not part of the
snapshot. -/
def tagLayers : ℕ → List WindLayer → List (Option ℕ × WindLayer)
  | _, [] => []
  | i, w :: rest => (some i, w) :: tagLayers (i + 1) rest

/-- The working wind-layer list setWinds builds before the bracket search
(src/PI_noaaWeather.py lines 210-245): the copied forecast list, with the
synthetic metar surface layer prepended when the snapshot's metar section
has a wind entry, after optionally dropping the lowest forecast layer.
Returns the list (tagged with original snapshot indices) and the updated
transition references. -/
def setWindsLayers (conf : WConf) (wd : WeatherData) (winds : List WindLayer)
    (elapsed : ℚ) (r : TransRefs) : List (Option ℕ × WindLayer) × TransRefs :=
  let tagged := tagLayers 0 winds
  match wd.metar with
  | some m =>
    match m.wind with
    | some hsg =>
      let extra0 : Extra := [("gust", hsg.2.2), ("metar", 1)]
      let hv : ℚ × Extra :=
        match m.variable_wind with
        | some hh =>
          let h1 := hdgMod hh.1
          let varr := if h1 > hh.2 then 360 - h1 + hh.2 else hh.2 - h1
          (h1, eset extra0 "variation" (randPattern varr))
        | none => (hsg.1, extra0)
      let ap := synthAltPair conf m elapsed r
      let extra2 : Extra :=
        match m.temperature with
        | some td =>
          let eT := match td.1 with
            | some tv => eset hv.2 "temp" (tv + 27315 / 100)
            | none => hv.2
          match td.2 with
          | some dv => eset eT "dew" (dv + 27315 / 100)
          | none => eT
        | none => hv.2
      let rest :=
        if winds.length > 1 ∧ (winds.headD default).alt < ap.1 + conf.metar_agl_limit
        then tagged.tail else tagged
      ((none, ⟨ap.1, hv.1, hsg.2.1, extra2⟩) :: rest, ap.2)
    | none => (tagged, r)
  | none => (tagged, r)

/-- The working layer list of setWinds (first component of
setWindsLayers). -/
def workingOf (conf : WConf) (wd : WeatherData) (winds : List WindLayer)
    (elapsed : ℚ) (r : TransRefs) : List (Option ℕ × WindLayer) :=
  (setWindsLayers conf wd winds elapsed r).1

/-- The transition references after the layer-assembly step of setWinds
(second component of setWindsLayers). -/
def refsAfterLayers (conf : WConf) (wd : WeatherData) (winds : List WindLayer)
    (elapsed : ℚ) (r : TransRefs) : TransRefs :=
  (setWindsLayers conf wd winds elapsed r).2

/-- The bracket-search loop of setWinds (src/PI_noaaWeather.py lines
251-257): scan the layer altitudes in order; tlayer is the first index
whose altitude exceeds the current altitude (or the last index), blayer
the last index at or below it (none when every layer is above). -/
def bracketGo (alt : ℚ) : List ℚ → ℕ → Option ℕ → Option ℕ × ℕ
  | [], _, b => (b, 0)
  | a :: rest, i, b =>
    if a > alt then (b, i)
    else if rest.isEmpty then (some i, i)
    else bracketGo alt rest (i + 1) (some i)

/-- The (blayer, tlayer) bracket index pair for a working layer list. -/
def bracketOf (alt : ℚ) (working : List (Option ℕ × WindLayer)) : Option ℕ × ℕ :=
  bracketGo alt (working.map (fun p => p.2.alt)) 0 none

/-- Python str() of the bottom bracket index as used in the exclusion list
(src/PI_noaaWeather.py line 262): str(blayer) is "False" when blayer is
the boolean False. -/
def bIdxStr : Option ℕ → String
  | some b => toString b
  | none => "False"

/-- One optional-extra transition step of transWindLayer
(src/PI_noaaWeather.py lines 325-327): if the variable is present in the
extras dictionary, transition it in place. -/
def transExtraVar (conf : WConf) (id : String) (elapsed : ℚ)
    (er : Extra × TransRefs) (v : String) : Extra × TransRefs :=
  match elookup er.1 v with
  | some x =>
    let p := transition er.2 x (id, v) elapsed conf.windGustTransSpeed
    (eset er.1 v p.1, p.2)
  | none => er

/-- Weather.transWindLayer (src/PI_noaaWeather.py lines 317-333):
transition heading, speed and the optional gust/rh/dew extras of a layer;
force gust_hdg to 0.  The returned layer's extras list is the same
dictionary object as the input layer's, mutated in place — callers that
hold the snapshot's layer see the change. -/
def transWindLayer (conf : WConf) (r : TransRefs) (wl : WindLayer) (id : String)
    (elapsed : ℚ) : WindLayer × TransRefs :=
  let ph := transitionHdg r wl.hdg (id, "hdg") elapsed conf.windHdgTransSpeed
  let ps := transition ph.2 wl.speed (id, "speed") elapsed conf.windHdgTransSpeed
  let e1 := transExtraVar conf id elapsed (wl.extra, ps.2) "gust"
  let e2 := transExtraVar conf id elapsed e1 "rh"
  let e3 := transExtraVar conf id elapsed e2 "dew"
  let ex := if emem e3.1 "gust_hdg" then eset e3.1 "gust_hdg" 0 else e3.1
  (⟨wl.alt, ph.1, ps.1, ex⟩, e3.2)

/-- The speed-weighted heading-interpolation exponent of
Weather.interpolateWindLayer (src/PI_noaaWeather.py lines 361-364), with
its guard exposed: expo = 2*s1/(s1+s2) when either speed is nonzero, else
1.  s1 is the speed of wlayer1 (the first argument of
interpolateWindLayer). -/
def expoGuard (s1 s2 : ℚ) : Bool :=
  decide (s1 ≠ 0) || decide (s2 ≠ 0)

/-- The exponent value itself (in Python the division raises
ZeroDivisionError when the guard passes but s1 + s2 = 0; in this total
model that division denotes 0). -/
def interpolateExpo (s1 s2 : ℚ) : ℚ :=
  if expoGuard s1 s2 then 2 * s1 / (s1 + s2) else 1

/-- Result of interpolateWindLayer: the fresh interpolated layer, plus
wlayer1's extras dictionary as it stands after the call (the source
mutates it in place at line 377: wlayer1[3]['variation'] = 0 when the key
is absent). -/
structure InterpOut where
  layer : WindLayer
  w1After : Extra
deriving DecidableEq

/-- Weather.interpolateWindLayer (src/PI_noaaWeather.py lines 349-393).
wlayer1 is the upper (top) layer and wlayer2 the lower one at the call
site in setWinds (line 269).  nl is the nlayer argument (the bottom
bracket index); Python tests its truthiness, so nl = 0 selects the
"first layer" branch with cosine-blended speed.  The extras loop checks
`wlayer2[3][key] is not False`; every extras value the embedded code
stores is a number (the metar marker True is the number 1), so that test
is modelled as always passing. -/
def interpolateWindLayer (B : BlendWeight) (w1 w2 : WindLayer) (alt : ℚ)
    (nl : ℕ) : InterpOut :=
  if w1.alt = w2.alt then ⟨w1, w1.extra⟩
  else
    let expo := interpolateExpo w1.speed w2.speed
    let hdg := expoCosineInterpolateHeading B w1.hdg w2.hdg w1.alt w2.alt alt expo
    let speed :=
      if nl ≠ 0 then interpolate w1.speed w2.speed w1.alt w2.alt alt
      else expoCosineInterpolate B w1.speed w2.speed w1.alt w2.alt alt expo
    let e1 := if emem w1.extra "variation" then w1.extra else eset w1.extra "variation" 0
    let newExtra := e1.foldl (fun acc p =>
      match elookup w2.extra p.1 with
      | some v2 =>
        acc ++ [(p.1,
          if nl ≠ 0 then interpolate p.2 v2 w1.alt w2.alt alt
          else expoCosineInterpolate B p.2 v2 w1.alt w2.alt alt expoDefault)]
      | none =>
        if p.1 = "temp" ∨ p.1 = "dew" then acc else acc ++ [(p.1, p.2)]) []
    ⟨⟨alt, hdg, speed, newExtra⟩, e1⟩

/-- Replace the extras dictionary of the layer at index j (identity when j
is out of range). -/
def setExtraAt : List WindLayer → ℕ → Extra → List WindLayer
  | [], _, _ => []
  | w :: rest, 0, e => ⟨w.alt, w.hdg, w.speed, e⟩ :: rest
  | w :: rest, n + 1, e => w :: setExtraAt rest n e

/-- Apply an in-place extras mutation back to the snapshot list: a tagged
layer's dictionary is the snapshot's, a none tag is the synthetic layer
(not in the snapshot). -/
def applyTag (winds : List WindLayer) (tag : Option ℕ) (e : Extra) : List WindLayer :=
  match tag with
  | none => winds
  | some j => setExtraAt winds j e

/-- Mutable state of the wind path: the transition reference table and the
previous top bracket index Weather.windAlts (initialised to -1). -/
structure WState where
  transRefs : TransRefs
  windAlts : ℤ

/-- Observable result of a setWinds call: the snapshot's wind-layer list
as it stands after the call (outer list copied by the source, inner extras
dictionaries shared and mutated in place), and the resolved layer written
to the three simulator wind slots. -/
structure SetWindsOut where
  postWinds : List WindLayer
  rwind : Option WindLayer
deriving DecidableEq

/-- Weather.setWinds (src/PI_noaaWeather.py lines 207-278, the layer
selection and resolution; the dataref writes and the sea-level temperature
projection consume the resolved layer and are not modelled). -/
def setWinds (B : BlendWeight) (conf : WConf) (wd : WeatherData)
    (winds : List WindLayer) (alt elapsed : ℚ) (st : WState) : SetWindsOut × WState :=
  let working := workingOf conf wd winds elapsed st.transRefs
  let r0 := refsAfterLayers conf wd winds elapsed st.transRefs
  if working.isEmpty then (⟨winds, none⟩, ⟨r0, st.windAlts⟩)
  else
    let bt := bracketOf alt working
    let r1 := if st.windAlts ≠ (bt.2 : ℤ)
      then transitionClearRefs r0 [bIdxStr bt.1, toString bt.2] else r0
    let wA : ℤ := if st.windAlts ≠ (bt.2 : ℤ) then (bt.2 : ℤ) else st.windAlts
    let tl := working.getD bt.2 (none, default)
    let tw := transWindLayer conf r1 tl.2 (toString bt.2) elapsed
    match bt.1 with
    | some bi =>
      if bi ≠ bt.2 then
        let bl := working.getD bi (none, default)
        let bw := transWindLayer conf tw.2 bl.2 (toString bi) elapsed
        let io := interpolateWindLayer B tw.1 bw.1 alt bi
        let post := applyTag (applyTag winds tl.1 io.w1After) bl.1 bw.1.extra
        (⟨post, some io.layer⟩, ⟨bw.2, wA⟩)
      else
        (⟨applyTag winds tl.1 tw.1.extra, some tw.1⟩, ⟨tw.2, wA⟩)
    | none =>
      (⟨applyTag winds tl.1 tw.1.extra, some tw.1⟩, ⟨tw.2, wA⟩)

/-- The altitude/heading/speed core of a layer (everything except the
extras dictionary). -/
def coreOf (w : WindLayer) : ℚ × ℚ × ℚ := (w.alt, w.hdg, w.speed)

/-- The severity value Weather.setTurbulence computes from the band list
before feeding it to the jitter pattern (src/PI_noaaWeather.py lines
184-200): the bracket loop runs only when more than one band is present;
the result is scaled by the configured probability. -/
def turbScan (alt : ℚ) : List (ℚ × ℚ) → Option (ℚ × ℚ) → Option (ℚ × ℚ) × (ℚ × ℚ)
  | [], _ => (none, (0, 0))
  | [c], prev => if c.1 > alt then (prev, c) else (some c, c)
  | c :: rest, prev => if c.1 > alt then (prev, c) else turbScan alt rest (some c)

/-- The severity fed to the jitter pattern by Weather.setTurbulence
(src/PI_noaaWeather.py lines 184-201): 0 unless more than one band exists;
bracket-interpolated otherwise; multiplied by
conf.turbulence_probability. -/
def setTurbulenceSeverity (conf : WConf) (turbulence : List (ℚ × ℚ)) (alt : ℚ) : ℚ :=
  let turb : ℚ :=
    if turbulence.length > 1 then
      match turbScan alt turbulence none with
      | (some p, c) => interpolate p.2 c.2 p.1 c.1 alt
      | (none, c) => c.2
    else 0
  turb * conf.turbulence_probability

/-- Weather.setTurbulence's writes to the three wind-layer turbulence
slots (src/PI_noaaWeather.py lines 203-205): the same jittered severity is
broadcast to all three. -/
def setTurbulence (conf : WConf) (turbulence : List (ℚ × ℚ)) (alt : ℚ) : ℚ × ℚ × ℚ :=
  let t := randPattern (setTurbulenceSeverity conf turbulence alt)
  (t, t, t)

/-- Weather.cc2xp (src/PI_noaaWeather.py lines 523-531): cloud cover
percentage to the simulator's 0..4 cover scale.  The c module's cc2xp
called at lines 460 and 469 is not under src/; this classmethod in src
implements the same conversion and is the embedding used for it. -/
def cc2xp (cover : ℚ) : ℚ :=
  let xp := cover / 100 * 4
  if xp < 1 ∧ cover > 0 then 1
  else if cover > 89 then 4
  else xp

/-- The X-Plane cloud-kind table of Weather.setClouds
(src/PI_noaaWeather.py lines 409-415): cover code and default thickness
per METAR cover string. -/
def xpCloudsMap (cover : String) : Option (ℚ × ℚ) :=
  if cover = "FEW" then some (1, f2m 2000)
  else if cover = "SCT" then some (2, f2m 4000)
  else if cover = "BKN" then some (3, f2m 4000)
  else if cover = "OVC" then some (4, f2m 4000)
  else if cover = "VV" then some (4, f2m 6000)
  else none

/-- The search for a gfs band matching an observed cloud base
(src/PI_noaaWeather.py lines 440-445): first band with positive base whose
base minus 1500 is below the observed base and whose top is above it; on a
match the layer thickness is the clamped gfs thickness. -/
def gfsMatch (gfsClouds : List (ℚ × ℚ × ℚ)) (base minCloud maxCloud : ℚ) : Option ℚ :=
  match gfsClouds.find? (fun g => decide (g.1 > 0 ∧ g.1 - 1500 < base ∧ base < g.2.1)) with
  | some g => some (base + climit3 (g.2.1 - g.1) maxCloud minCloud)
  | none => none

/-- Accumulator of the observed-cloud loop of setClouds: lastBase and
maxTop as in the source (both start at 0, and the source tests their
truthiness), plus the layers emitted so far, in processing order (highest
first). -/
structure CloudAcc where
  lastBase : ℚ
  maxTop : ℚ
  clouds : List (ℚ × ℚ × ℚ)
deriving DecidableEq

/-- One iteration of the observed-cloud loop of Weather.setClouds
(src/PI_noaaWeather.py lines 431-453).  An observed cover string outside
the xpClouds table keeps top = minCloud; the source would carry the raw
string through as the cover, modelled here as cover code 0 (no claim
settled here constrains that cover value). -/
def metarCloudStep (gfsClouds : List (ℚ × ℚ × ℚ)) (minCloud maxCloud : ℚ)
    (acc : CloudAcc) (cl : ℚ × String × ℚ) : CloudAcc :=
  let base := cl.1
  let tc : ℚ × ℚ :=
    match xpCloudsMap cl.2.1 with
    | some p => (base + p.2, p.1)
    | none => (minCloud, 0)
  let top1 :=
    match gfsMatch gfsClouds base minCloud maxCloud with
    | some t => t
    | none => tc.1
  let top2 := if acc.lastBase ≠ 0 ∧ acc.lastBase < top1 then acc.lastBase else top1
  { lastBase := base,
    maxTop := if acc.maxTop ≠ 0 then acc.maxTop else top2,
    clouds := acc.clouds ++ [(base, top2, tc.2)] }

/-- The observed-cloud loop of setClouds: the observed list (ascending) is
processed in reversed order. -/
def metarCloudsFold (gfsClouds : List (ℚ × ℚ × ℚ)) (minCloud maxCloud : ℚ)
    (clouds : List (ℚ × String × ℚ)) : CloudAcc :=
  clouds.reverse.foldl (metarCloudStep gfsClouds minCloud maxCloud) ⟨0, 0, []⟩

/-- The "add gfs clouds" loop of setClouds (src/PI_noaaWeather.py lines
456-463): prepend each gfs band whose base clears both the gfs cloud limit
and maxTop, while fewer than 3 layers exist. -/
def gfsPrepend (gfsCloudLimit maxCloud minCloud : ℚ) (gfsClouds : List (ℚ × ℚ × ℚ))
    (maxTop : ℚ) (setC : List (ℚ × ℚ × ℚ)) : List (ℚ × ℚ × ℚ) :=
  gfsClouds.foldl (fun acc g =>
    if acc.length < 3 ∧ g.1 > max gfsCloudLimit maxTop then
      (g.1, g.1 + climit3 (g.2.1 - g.1) maxCloud minCloud, cc2xp g.2.2) :: acc
    else acc) setC

/-- One iteration of the GFS-only cloud loop of Weather.setClouds
(src/PI_noaaWeather.py lines 467-479).  Note the comparison at line 477:
`if lastBase > top: top = lastBase` raises a low top up to the base of the
layer above; a top already exceeding that base is left as is. -/
def gfsOnlyStep (minCloud maxCloud : ℚ) (acc : ℚ × List (ℚ × ℚ × ℚ))
    (g : ℚ × ℚ × ℚ) : ℚ × List (ℚ × ℚ × ℚ) :=
  let base := g.1
  let top := g.2.1
  let cover := cc2xp g.2.2
  if cover > 0 ∧ base > 0 ∧ top > 0 then
    let top1 := if cover < 3 then base + minCloud else base + climit3 (top - base) maxCloud minCloud
    let top2 := if acc.1 > top1 then acc.1 else top1
    (base, acc.2 ++ [(base, top2, cover)])
  else acc

/-- The GFS-only branch of setClouds: the gfs bands (ascending) processed
in reversed order. -/
def gfsOnlyFold (minCloud maxCloud : ℚ) (gfsClouds : List (ℚ × ℚ × ℚ)) : List (ℚ × ℚ × ℚ) :=
  (gfsClouds.reverse.foldl (gfsOnlyStep minCloud maxCloud) (0, [])).2

/-- The finalisation of setClouds (src/PI_noaaWeather.py lines 482-493):
reverse into ascending order, then the two anti-redraw filler insertions.
Note the second test reads setClouds[1][2], the cover of the second layer,
and compares it against the gfs cloud limit. -/
def cloudsFinalize (minCloud limitv : ℚ) (setC : List (ℚ × ℚ × ℚ)) : List (ℚ × ℚ × ℚ) :=
  let n := setC.length
  let s := setC.reverse
  if n ≠ 0 then
    let s1 := if n < 3 ∧ limitv < (s.headD (0, 0, 0)).1 then (0, minCloud, 0) :: s else s
    let s2 :=
      if 1 < s1.length ∧ s1.length < 3 ∧ limitv < (s1.getD 1 (0, 0, 0)).2.2 then
        [s1.getD 0 (0, 0, 0),
         ((s1.getD 0 (0, 0, 0)).2.2, (s1.getD 0 (0, 0, 0)).2.2 + minCloud, 0),
         s1.getD 1 (0, 0, 0)]
      else s1
    s2
  else s

/-- Weather.setClouds (src/PI_noaaWeather.py lines 395-493), the cloud-set
assembly (the dataref writes with redraw suppression consume this list and
are not modelled): merged METAR+GFS branch when the metar section carries
a distance below the configured limit and a cloud list, otherwise the
GFS-only branch. -/
def setClouds (conf : WConf) (wd : WeatherData) : List (ℚ × ℚ × ℚ) :=
  let gfsClouds := wd.gfsClouds
  let minCloud := f2m 2000
  let maxCloud := f2m (climit 40000 conf.max_cloud_height)
  let gfsCloudLimit := f2m 5600
  let ls : ℚ × List (ℚ × ℚ × ℚ) :=
    match wd.metar with
    | some m =>
      match m.distance, m.clouds with
      | some dist, some cls =>
        if dist < conf.metar_distance_limit then
          let lim := gfsCloudLimit + m.elevation
          let acc := metarCloudsFold gfsClouds minCloud maxCloud cls
          (lim, gfsPrepend lim maxCloud minCloud gfsClouds acc.maxTop acc.clouds)
        else (gfsCloudLimit, gfsOnlyFold minCloud maxCloud gfsClouds)
      | _, _ => (gfsCloudLimit, gfsOnlyFold minCloud maxCloud gfsClouds)
    | none => (gfsCloudLimit, gfsOnlyFold minCloud maxCloud gfsClouds)
  cloudsFinalize minCloud ls.1 ls.2

/-- Non-overlap of an ascending cloud list: every layer's top is at or
below the base of the layer above it. -/
def OverlapFree (l : List (ℚ × ℚ × ℚ)) : Prop :=
  l.Chain' (fun a b => a.2.1 ≤ b.1)

/-- State of the weather client thread (src/PI_noaaWeather.py: fields
weatherData, newData, queryResponses and the die event read by
Weather.weatherClient).  The payload dictionary type is a parameter; the
claims constrain only the presence of the info key. -/
structure ClientState (α : Type) where
  weatherData : Option α
  newData : Bool
  queryResponses : List α
  dieFlag : Bool
deriving DecidableEq

/-- A decoded datagram received by the client thread: the literal
termination marker, or a payload dictionary. -/
inductive RecvMsg (α : Type) where
  | bye : RecvMsg α
  | payload : α → RecvMsg α
deriving DecidableEq

/-- One iteration of Weather.weatherClient's receive loop
(src/PI_noaaWeather.py lines 143-153): break (none) on the die flag or the
termination marker; append payloads without an info key to the query
response list; a payload with an info key replaces the snapshot and sets
the new-data flag. -/
def weatherClient {α : Type} (hasInfo : α → Bool) (st : ClientState α)
    (m : RecvMsg α) : Option (ClientState α) :=
  match m with
  | .bye => none
  | .payload a =>
    if st.dieFlag then none
    else if hasInfo a then some { st with weatherData := some a, newData := true }
    else some { st with queryResponses := st.queryResponses ++ [a] }

/-- The character set of the server's strip call
(src/noaweather/weatherServer.py line 60: data.strip("\n\c\t ") — in
Python the \c stands for a backslash followed by the letter c, so the set
is newline, backslash, letter c, tab, space). -/
def stripChars : List Char := ['\n', '\\', 'c', '\t', ' ']

/-- Strip the server's strip set from both ends of the datagram. -/
def stripServer (s : String) : String :=
  String.mk (((s.toList.dropWhile (fun ch => stripChars.contains ch)).reverse.dropWhile
    (fun ch => stripChars.contains ch)).reverse)

/-- A response the server may send back. -/
inductive SrvResponse where
  | weather : List String → SrvResponse
  | metar : String → SrvResponse
deriving DecidableEq

/-- A server-side state effect of handling one datagram. -/
inductive SrvAction where
  | noop : SrvAction
  | shutdown : SrvAction
  | reloadConf : SrvAction
deriving DecidableEq

/-- clientHandler.handle (src/noaweather/weatherServer.py lines 58-87):
dispatch of one datagram into the response (none when nothing is sent)
and the server-side effect.  A message matching none of the branches
falls into `else: return` — no response and no effect. -/
def handle (data : String) : Option SrvResponse × SrvAction :=
  let d := stripServer data
  if d.length > 1 then
    if d.front = '?' then
      let body := d.drop 1
      let sdata := body.splitOn "|"
      if sdata.length > 1 then (some (.weather sdata), .noop)
      else if d.length = 5 then (some (.metar body), .noop)
      else (none, .noop)
    else if d = "!shutdown" then (none, .shutdown)
    else if d = "!reload" then (none, .reloadConf)
    else (none, .noop)
  else (none, .noop)

/-- A concrete configuration used to evaluate the pipeline: 900 m AGL
offset, 10 km station-distance limit, unit transition rates, 40000 max
cloud height, probability 1. -/
def conf0 : WConf :=
  ⟨900, 10000, 1, 1, 40000, 1⟩

/-- A snapshot with no metar section and no gfs clouds. -/
def wd0 : WeatherData := ⟨none, []⟩

/-- The spec's two-layer scenario: {alt 0, hdg 0, speed 5} below
{alt 1000, hdg 90, speed 15}. -/
def windsS : List WindLayer := [⟨0, 0, 5, []⟩, ⟨1000, 90, 15, []⟩]

/-- Fresh wind-path state: empty reference table, windAlts = -1. -/
def st0 : WState := ⟨emptyRefs, -1⟩

/-- Three forecast layers used by the bracket-clearing run. -/
def winds3 : List WindLayer := [⟨0, 10, 5, []⟩, ⟨1000, 20, 6, []⟩, ⟨2000, 30, 7, []⟩]

/-- State after the first call of the clearing run (aircraft at 2500 m,
bracket (2,2)). -/
def stClear1 : WState := (setWinds linearBlend conf0 wd0 winds3 2500 1 st0).2

/-- State after the second call (aircraft at 1500 m, bracket (1,2), same
top index — no clearing). -/
def stClear2 : WState := (setWinds linearBlend conf0 wd0 winds3 1500 1 stClear1).2

/-- State after the third call (aircraft back at 2500 m, bracket (2,2),
top index unchanged — no clearing although the pair changed). -/
def stClear3 : WState := (setWinds linearBlend conf0 wd0 winds3 2500 1 stClear2).2

/-- A metar section far from the aircraft (100 km) with a surface wind. -/
def metarFar : MetarData := ⟨120, some 100000, some (180, 8, 12), none, none, none⟩

/-- Snapshot holding only that far station report. -/
def wdFar : WeatherData := ⟨some metarFar, []⟩

/-- A high-elevation station (2000 m) with wind, used for the layer-drop
run. -/
def metarHigh : MetarData := ⟨2000, some 5000, some (200, 10, 14), none, none, none⟩

/-- Snapshot holding that high station report. -/
def wdHigh : WeatherData := ⟨some metarHigh, []⟩

/-- Forecast layers for the layer-drop run: the lowest layer sits 1900 m
below the synthetic layer, farther away than the 900 m AGL offset. -/
def windsDrop : List WindLayer := [⟨1000, 0, 5, []⟩, ⟨5000, 90, 15, []⟩]

/-- Snapshot for the cloud-overlap run: no usable metar, two gfs bands
whose lower band tops out above the upper band's base. -/
def wdClouds : WeatherData := ⟨none, [(500, 10000, 100), (9000, 9500, 100)]⟩

/-- A wind-path state whose reference table holds one key with layer id 9,
and whose previous top index is 2. -/
def stWit : WState := ⟨tset emptyRefs ("9", "hdg") 7, 2⟩

/-- An angle already in [0, 360) is fixed by hdgMod. -/
theorem hdgMod_eq_self {x : ℚ} (h0 : 0 ≤ x) (h1 : x < 360) : hdgMod x = x := by
  unfold hdgMod
  have hf : ⌊x / 360⌋ = 0 := by
    rw [Int.floor_eq_zero_iff, Set.mem_Ico]
    refine ⟨by positivity, ?_⟩
    rw [div_lt_one (by norm_num)]
    exact h1
  rw [hf]
  push_cast
  ring

/-- Replacing a layer's extras does not change any layer's core. -/
theorem setExtraAt_map_core (l : List WindLayer) :
    ∀ (j : ℕ) (e : Extra), (setExtraAt l j e).map coreOf = l.map coreOf := by
  induction l with
  | nil => intro j e; rfl
  | cons w t ih =>
    intro j e
    cases j with
    | zero => simp [setExtraAt, coreOf]
    | succ n => simp [setExtraAt, ih]

/-- Writing an extras mutation back through a tag does not change any
layer's core. -/
theorem applyTag_map_core (l : List WindLayer) (tag : Option ℕ) (e : Extra) :
    (applyTag l tag e).map coreOf = l.map coreOf := by
  cases tag with
  | none => rfl
  | some j => simp [applyTag, setExtraAt_map_core]

/-- Every entry of a tagged layer list carries a snapshot index at least
the starting index. -/
theorem tagLayers_tags (l : List WindLayer) :
    ∀ (i : ℕ) (p : Option ℕ × WindLayer), p ∈ tagLayers i l → ∃ j, p.1 = some j ∧ i ≤ j := by
  induction l with
  | nil => intro i p hp; simp [tagLayers] at hp
  | cons w t ih =>
    intro i p hp
    simp only [tagLayers, List.mem_cons] at hp
    rcases hp with h | h
    · exact ⟨i, by simp [h], le_refl i⟩
    · obtain ⟨j, hj, hij⟩ := ih (i + 1) p h
      exact ⟨j, hj, by omega⟩

/-- Storing a key makes exactly that key present besides the existing
ones. -/
theorem tset_isSome (r : TransRefs) (k : TKey) (v : ℚ) (k2 : TKey) :
    ((tset r k v) k2).isSome = true ↔ k2 = k ∨ (r k2).isSome = true := by
  unfold tset
  by_cases h : k2 = k <;> simp [h]

/-- transition preserves every existing reference key. -/
theorem transition_mono (r : TransRefs) (v : ℚ) (k : TKey) (e rate : ℚ) (k2 : TKey)
    (h : (r k2).isSome = true) : (((transition r v k e rate).2) k2).isSome = true := by
  unfold transition
  cases hr : r k <;> simp [tset_isSome, h]

/-- transition adds no key other than its own. -/
theorem transition_sub (r : TransRefs) (v : ℚ) (k : TKey) (e rate : ℚ) (k2 : TKey)
    (h : (((transition r v k e rate).2) k2).isSome = true) :
    k2 = k ∨ (r k2).isSome = true := by
  unfold transition at h
  cases hr : r k <;> rw [hr] at h <;> simpa [tset_isSome] using h

/-- transitionHdg preserves every existing reference key. -/
theorem transitionHdg_mono (r : TransRefs) (v : ℚ) (k : TKey) (e rate : ℚ) (k2 : TKey)
    (h : (r k2).isSome = true) : (((transitionHdg r v k e rate).2) k2).isSome = true := by
  unfold transitionHdg
  cases hr : r k <;> simp [tset_isSome, h]

/-- transitionHdg adds no key other than its own. -/
theorem transitionHdg_sub (r : TransRefs) (v : ℚ) (k : TKey) (e rate : ℚ) (k2 : TKey)
    (h : (((transitionHdg r v k e rate).2) k2).isSome = true) :
    k2 = k ∨ (r k2).isSome = true := by
  unfold transitionHdg at h
  cases hr : r k <;> rw [hr] at h <;> simpa [tset_isSome] using h

/-- transExtraVar preserves every existing reference key. -/
theorem transExtraVar_mono (conf : WConf) (id : String) (e : ℚ) (er : Extra × TransRefs)
    (v : String) (k2 : TKey) (h : (er.2 k2).isSome = true) :
    (((transExtraVar conf id e er v).2) k2).isSome = true := by
  unfold transExtraVar
  cases hx : elookup er.1 v with
  | none => simpa using h
  | some x => simpa using transition_mono er.2 x (id, v) e conf.windGustTransSpeed k2 h

/-- transExtraVar adds only keys with its own layer id. -/
theorem transExtraVar_sub (conf : WConf) (id : String) (e : ℚ) (er : Extra × TransRefs)
    (v : String) (k2 : TKey) (h : (((transExtraVar conf id e er v).2) k2).isSome = true) :
    k2.1 = id ∨ (er.2 k2).isSome = true := by
  unfold transExtraVar at h
  cases hx : elookup er.1 v with
  | none => rw [hx] at h; exact Or.inr h
  | some x =>
    rw [hx] at h
    rcases transition_sub er.2 x (id, v) e conf.windGustTransSpeed k2 h with hk | hk
    · exact Or.inl (by rw [hk])
    · exact Or.inr hk

/-- transWindLayer preserves every existing reference key. -/
theorem transWindLayer_mono (conf : WConf) (r : TransRefs) (wl : WindLayer) (id : String)
    (e : ℚ) (k2 : TKey) (h : (r k2).isSome = true) :
    (((transWindLayer conf r wl id e).2) k2).isSome = true := by
  unfold transWindLayer
  apply transExtraVar_mono
  apply transExtraVar_mono
  apply transExtraVar_mono
  exact transition_mono _ _ _ _ _ _ (transitionHdg_mono _ _ _ _ _ _ h)

/-- transWindLayer adds only keys with its own layer id. -/
theorem transWindLayer_sub (conf : WConf) (r : TransRefs) (wl : WindLayer) (id : String)
    (e : ℚ) (k2 : TKey) (h : (((transWindLayer conf r wl id e).2) k2).isSome = true) :
    k2.1 = id ∨ (r k2).isSome = true := by
  unfold transWindLayer at h
  rcases transExtraVar_sub _ _ _ _ _ _ h with hk | hk
  · exact Or.inl hk
  rcases transExtraVar_sub _ _ _ _ _ _ hk with hk2 | hk2
  · exact Or.inl hk2
  rcases transExtraVar_sub _ _ _ _ _ _ hk2 with hk3 | hk3
  · exact Or.inl hk3
  rcases transition_sub _ _ _ _ _ _ hk3 with hk4 | hk4
  · exact Or.inl (by rw [hk4])
  rcases transitionHdg_sub _ _ _ _ _ _ hk4 with hk5 | hk5
  · exact Or.inl (by rw [hk5])
  · exact Or.inr hk5

/-- The layer-assembly step of setWinds preserves every existing reference
key. -/
theorem refsAfterLayers_mono (conf : WConf) (wd : WeatherData) (winds : List WindLayer)
    (e : ℚ) (r : TransRefs) (k2 : TKey) (h : (r k2).isSome = true) :
    ((refsAfterLayers conf wd winds e r) k2).isSome = true := by
  obtain ⟨mo, gc⟩ := wd
  unfold refsAfterLayers setWindsLayers
  cases mo with
  | none => simpa using h
  | some m =>
    obtain ⟨el, di, wi, vw, te, cl⟩ := m
    cases wi with
    | none => simpa using h
    | some hsg =>
      simp only [synthAltPair]
      exact transition_mono _ _ _ _ _ _ h

/-- The layer-assembly step adds only the metar altitude key (layer id
"0"). -/
theorem refsAfterLayers_sub (conf : WConf) (wd : WeatherData) (winds : List WindLayer)
    (e : ℚ) (r : TransRefs) (k2 : TKey)
    (h : ((refsAfterLayers conf wd winds e r) k2).isSome = true) :
    k2.1 = "0" ∨ (r k2).isSome = true := by
  obtain ⟨mo, gc⟩ := wd
  unfold refsAfterLayers setWindsLayers at h
  cases mo with
  | none => exact Or.inr (by simpa using h)
  | some m =>
    obtain ⟨el, di, wi, vw, te, cl⟩ := m
    cases wi with
    | none => exact Or.inr (by simpa using h)
    | some hsg =>
      simp only [synthAltPair] at h
      rcases transition_sub _ _ _ _ _ _ h with hk | hk
      · exact Or.inl (by rw [hk])
      · exact Or.inr hk

/-- Every key surviving a clear has its layer id in the exclusion list. -/
theorem clearRefs_sub (r : TransRefs) (ex : List String) (k2 : TKey)
    (h : ((transitionClearRefs r ex) k2).isSome = true) : k2.1 ∈ ex := by
  unfold transitionClearRefs at h
  by_cases hc : k2.1 ∈ ex
  · exact hc
  · simp [hc] at h

/-- Invariant of the observed-cloud loop: as long as every input base is
positive, the emitted list (highest layer first) keeps each later entry's
top at or below the previous entry's base — the cap at line 447 of
src/PI_noaaWeather.py ensures it, because lastBase is the previous entry's
base and is nonzero. -/
theorem metarFold_chain (gfs : List (ℚ × ℚ × ℚ)) (minC maxC : ℚ) :
    ∀ (ds : List (ℚ × String × ℚ)) (acc : CloudAcc),
      (∀ c ∈ ds, 0 < c.1) →
      List.Chain' (fun a b => b.2.1 ≤ a.1) acc.clouds →
      (∀ e ∈ acc.clouds.getLast?, e.1 = acc.lastBase ∧ 0 < acc.lastBase) →
      List.Chain' (fun a b => b.2.1 ≤ a.1)
        ((ds.foldl (metarCloudStep gfs minC maxC) acc).clouds) := by
  intro ds
  induction ds with
  | nil =>
    intro acc _ hc _
    simpa using hc
  | cons c ds ih =>
    intro acc hpos hc hlast
    rw [List.foldl_cons]
    apply ih
    · intro x hx
      exact hpos x (List.mem_cons_of_mem c hx)
    · dsimp only [metarCloudStep]
      apply List.Chain'.append hc (List.chain'_singleton _)
      intro x hx y hy
      simp only [List.head?_cons, Option.mem_def, Option.some.injEq] at hy
      obtain ⟨hx1, hx2⟩ := hlast x hx
      subst hy
      show (if acc.lastBase ≠ 0 ∧ acc.lastBase < _ then acc.lastBase else _) ≤ x.1
      rw [hx1]
      split_ifs with h
      · exact le_refl _
      · rcases not_and_or.mp h with h1 | h2
        · exact absurd (ne_of_gt hx2) (fun _ => h1 (ne_of_gt hx2))
        · exact le_of_not_lt h2
    · intro e he
      dsimp only [metarCloudStep] at he
      rw [List.getLast?_concat] at he
      simp only [Option.mem_def, Option.some.injEq] at he
      subst he
      exact ⟨rfl, hpos c (List.mem_cons_self c ds)⟩

/-- Parametric evaluation of the spec's two-layer scenario: with any blend
weight, setWinds resolves the layer at altitude 500 by interpolating the
transitioned top layer (alt 1000, hdg 90, speed 15) against the bottom
layer (alt 0, hdg 0, speed 5) with the exponent 2*15/(15+5) = 3/2, giving
heading 90 - 90*w(1/2, 3/2) and speed 15 - 10*w(1/2, 3/2). -/
theorem scenario_rwind (B : BlendWeight) :
    (setWinds B conf0 wd0 windsS 500 1 st0).1.rwind =
      some ⟨500, hdgMod (90 + -90 * B.w (1 / 2) (3 / 2)),
        15 + (5 - 15) * B.w (1 / 2) (3 / 2), [("variation", 0)]⟩ := by
  with_unfolding_all rfl

set_option maxRecDepth 4000 in
/-- C1 counterexample: in the spec's two-layer scenario ({alt 0, hdg 0,
speed 5} and {alt 1000, hdg 90, speed 15}, aircraft at 500), setWinds
resolves the wind by calling interpolateWindLayer with the top layer as
wlayer1 and the bottom layer as wlayer2 (src/PI_noaaWeather.py line 269),
so the heading-blend exponent is interpolateExpo 15 5 = 2*15/(15+5) = 3/2
— not the claimed 2*speed_bottom/(speed_bottom+speed_top) = 2*5/(5+15)
= 1/2. -/
theorem setWinds_expo_counterexample :
    (setWinds linearBlend conf0 wd0 windsS 500 1 st0).1.rwind =
      some ((interpolateWindLayer linearBlend ⟨1000, 90, 15, []⟩ ⟨0, 0, 5, []⟩ 500 0).layer) ∧
    interpolateExpo 15 5 = 3 / 2 ∧
    2 * (5 : ℚ) / (5 + 15) = 1 / 2 ∧ (3 / 2 : ℚ) ≠ 1 / 2 := by
  with_unfolding_all decide

/-- C1 (amended): the heading-blend exponent setWinds passes is
2*speed_top/(speed_top+speed_bottom) — the first interpolation argument is
the top layer — and in the spec's two-layer scenario the resolved heading
lies strictly between 0 and 90 degrees and the resolved speed strictly
between 5 and 15, for every blend weight satisfying the spec's
no-overshoot property. -/
theorem setWinds_scenario_amended (B : BlendWeight) :
    interpolateExpo 15 5 = 2 * 15 / (15 + 5) ∧
    ∃ r : WindLayer, (setWinds B conf0 wd0 windsS 500 1 st0).1.rwind = some r ∧
      0 < r.hdg ∧ r.hdg < 90 ∧ 5 < r.speed ∧ r.speed < 15 := by
  constructor
  · norm_num [interpolateExpo, expoGuard]
  · have hw0 : (0 : ℚ) < B.w (1 / 2) (3 / 2) :=
      B.w_pos _ _ (by norm_num) (by norm_num) (by norm_num)
    have hw1 : B.w (1 / 2) (3 / 2) < 1 :=
      B.w_lt_one _ _ (by norm_num) (by norm_num) (by norm_num)
    refine ⟨_, scenario_rwind B, ?_, ?_, ?_, ?_⟩ <;> dsimp only
    · rw [hdgMod_eq_self (by linarith) (by linarith)]
      linarith
    · rw [hdgMod_eq_self (by linarith) (by linarith)]
      linarith
    · linarith
    · linarith

/-- C5: a decoded payload dictionary received by the running client thread
(die flag clear) containing the info key replaces the current snapshot
wholesale and sets the new-data flag, leaving the response queue alone; a
payload without the info key is appended to the response queue, leaving
the snapshot and the flag alone (src/PI_noaaWeather.py lines 148-153). -/
theorem weatherClient_dispatch {α : Type} (hasInfo : α → Bool) (st : ClientState α) (a : α)
    (h : st.dieFlag = false) :
    (hasInfo a = true →
      weatherClient hasInfo st (.payload a) =
        some { st with weatherData := some a, newData := true }) ∧
    (hasInfo a = false →
      weatherClient hasInfo st (.payload a) =
        some { st with queryResponses := st.queryResponses ++ [a] }) := by
  constructor <;> intro hi <;> simp [weatherClient, h, hi]

/-- Witness for C5: a concrete info payload replaces the snapshot of a
fresh client state. -/
theorem weatherClient_dispatch_witness :
    weatherClient (fun b => b) (⟨none, false, [], false⟩ : ClientState Bool)
      (RecvMsg.payload true) = some ⟨some true, true, [], false⟩ :=
  (weatherClient_dispatch (fun b => b) ⟨none, false, [], false⟩ true rfl).1 rfl

/-- C7 counterexample: with exactly one turbulence band (severity 4/5) and
probability 1, setTurbulence feeds severity 0 to the jitter pattern — the
band list is only consulted when it holds more than one band
(src/PI_noaaWeather.py line 187) — although the claimed scaled band value
4/5 is nonzero. -/
theorem setTurbulence_single_band_counterexample :
    setTurbulenceSeverity conf0 [(1000, 4 / 5)] 500 = 0 ∧
    conf0.turbulence_probability = 1 ∧ (4 / 5 : ℚ) * 1 ≠ 0 := by
  with_unfolding_all decide

/-- C7 (amended): for a single-band list the severity fed to the jitter
pattern is 0 whatever the band holds (bands are only consulted when at
least two are present), and the same value is broadcast to all three
wind-layer turbulence outputs. -/
theorem setTurbulence_single_band_amended (conf : WConf) (band : ℚ × ℚ) (alt : ℚ) :
    setTurbulenceSeverity conf [band] alt = 0 ∧
    ∃ t, setTurbulence conf [band] alt = (t, t, t) := by
  refine ⟨?_, ⟨_, rfl⟩⟩
  unfold setTurbulenceSeverity
  norm_num

/-- C8: the src server's dispatch has no branch for '!resetMetar': the
message falls into the final else and produces no response and no
server-side effect — in particular the station-report source is not
reinitialised, although the plugin client sends exactly this message "to
tell server to reinit metar database" (src/PI_noaaWeather.py lines
1062-1064).  The neighbouring commands '!reload' and '!shutdown' do
dispatch, confirming the embedding of the branch structure. -/
theorem handle_resetMetar_noop :
    handle "!resetMetar" = (none, SrvAction.noop) ∧
    handle "!reload" = (none, SrvAction.reloadConf) ∧
    handle "!shutdown" = (none, SrvAction.shutdown) := by
  with_unfolding_all decide

/-- C9 counterexample: one setWinds call over the two-layer scenario
mutates the snapshot in place — the top layer's extras dictionary gains
the entry variation = 0 inserted by interpolateWindLayer
(src/PI_noaaWeather.py line 377), because setWinds copies only the outer
list and the extras dictionaries stay shared. -/
theorem setWinds_mutation_counterexample :
    ((setWinds linearBlend conf0 wd0 windsS 500 1 st0).1.postWinds.getD 1 default).extra ≠
      (windsS.getD 1 default).extra ∧
    ((setWinds linearBlend conf0 wd0 windsS 500 1 st0).1.postWinds.getD 1 default).extra =
      [("variation", 0)] := by
  with_unfolding_all decide

/-- C9 (amended): the consumption path never changes the snapshot's
wind-layer list structure nor any layer's altitude, heading or speed
(setWinds copies the outer list), but the layers' extras mappings are
mutated in place through the shared dictionaries. -/
theorem setWinds_core_amended (B : BlendWeight) (conf : WConf) (wd : WeatherData)
    (winds : List WindLayer) (alt elapsed : ℚ) (st : WState) :
    ((setWinds B conf wd winds alt elapsed st).1.postWinds).map coreOf = winds.map coreOf := by
  unfold setWinds
  by_cases hE : (workingOf conf wd winds elapsed st.transRefs).isEmpty = true
  · simp [hE]
  · simp only [hE, if_false, Bool.false_eq_true]
    rcases hb : (bracketOf alt (workingOf conf wd winds elapsed st.transRefs)).1 with _ | bi
    · simp [hb, applyTag_map_core]
    · simp only [hb]
      by_cases hbi : bi ≠ (bracketOf alt (workingOf conf wd winds elapsed st.transRefs)).2 <;>
        simp [hbi, applyTag_map_core]

/-- C10 counterexample: the guard of the speed-weighted exponent passes
for the speed pair (5, -5) although the denominator 5 + (-5) is zero — in
Python the division at src/PI_noaaWeather.py line 362 raises
ZeroDivisionError there. -/
theorem interpolateExpo_zero_denominator_counterexample :
    expoGuard 5 (-5) = true ∧ (5 : ℚ) + (-5) = 0 := by
  with_unfolding_all decide

/-- C10 (amended): for nonnegative speeds the exponent is total: whenever
the guard passes the denominator is positive, and when the guard fails
(both speeds zero) the exponent defaults to 1. -/
theorem interpolateExpo_total_amended (s1 s2 : ℚ) (h1 : 0 ≤ s1) (h2 : 0 ≤ s2) :
    (expoGuard s1 s2 = true → 0 < s1 + s2) ∧
    (expoGuard s1 s2 = false → interpolateExpo s1 s2 = 1) := by
  constructor
  · intro hg
    unfold expoGuard at hg
    simp only [Bool.or_eq_true, decide_eq_true_eq] at hg
    rcases hg with h | h
    · have := lt_of_le_of_ne h1 (Ne.symm h)
      linarith
    · have := lt_of_le_of_ne h2 (Ne.symm h)
      linarith
  · intro hg
    unfold interpolateExpo
    simp [hg]

/-- Witness for C10: the guard passes at speeds (3, 0) with positive
denominator, and the exponent at (0, 0) is 1. -/
theorem interpolateExpo_total_amended_witness :
    0 < (3 : ℚ) + 0 ∧ interpolateExpo 0 0 = 1 :=
  ⟨(interpolateExpo_total_amended 3 0 (by norm_num) (by norm_num)).1 (by decide),
   (interpolateExpo_total_amended 0 0 (by norm_num) (by norm_num)).2 (by decide)⟩

/-- C6 counterexample: in the forecast-only branch, gfs bands
[(500, 10000, 100), (9000, 9500, 100)] produce the cloud set
[(500, 10000, 4), (9000, 9609.6, 4)] — the lower layer's top (10000)
overlaps the upper layer's base (9000), because line 477 of
src/PI_noaaWeather.py only raises a low top, never caps a high one. -/
theorem setClouds_overlap_counterexample :
    setClouds conf0 wdClouds = [(500, 10000, 4), (9000, 48048 / 5, 4)] ∧
    ¬ OverlapFree (setClouds conf0 wdClouds) := by
  have he : setClouds conf0 wdClouds = [(500, 10000, 4), (9000, 48048 / 5, 4)] := by
    norm_num [setClouds, wdClouds, conf0, gfsOnlyFold, gfsOnlyStep, cc2xp, climit3, climit,
      f2m, cloudsFinalize, List.foldl_cons, List.foldl_nil]
  refine ⟨he, ?_⟩
  intro h
  rw [he] at h
  have h2 := List.chain'_pair.mp h
  norm_num at h2

/-- C6 (amended): the overlap cap holds among the layers produced from the
observed METAR clouds whenever every observed base is positive: each
emitted layer's top is capped at the base of the previously processed
(next higher) observed layer, so those layers never overlap.  The
prepended forecast layers and the forecast-only branch enforce no such
cap. -/
theorem setClouds_metar_no_overlap_amended (gfs : List (ℚ × ℚ × ℚ)) (minC maxC : ℚ)
    (cls : List (ℚ × String × ℚ)) (hpos : ∀ c ∈ cls, 0 < c.1) :
    OverlapFree ((metarCloudsFold gfs minC maxC cls).clouds.reverse) := by
  have h := metarFold_chain gfs minC maxC cls.reverse ⟨0, 0, []⟩
    (fun c hc => hpos c (List.mem_reverse.mp hc))
    (by simp)
    (by intro e he; simp at he)
  unfold OverlapFree
  rw [List.chain'_reverse]
  exact h

/-- Witness for C6 (amended): two positive-based observed layers. -/
theorem setClouds_metar_no_overlap_amended_witness :
    OverlapFree ((metarCloudsFold [] (f2m 2000) (f2m 40000)
      [(300, "SCT", 0), (2000, "OVC", 0)]).clouds.reverse) :=
  setClouds_metar_no_overlap_amended [] (f2m 2000) (f2m 40000) _
    (by with_unfolding_all decide)

/-- C3 counterexample: a snapshot whose station report is 100 km away —
ten times the configured 10 km limit — still gets the synthetic surface
layer prepended (head of the working list carries the synthetic tag),
because setWinds never reads the distance field
(src/PI_noaaWeather.py lines 213-245). -/
theorem setWinds_metar_distance_counterexample :
    wdFar.metar = some metarFar ∧ metarFar.distance = some 100000 ∧
    conf0.metar_distance_limit = 10000 ∧ (10000 : ℚ) < 100000 ∧
    ((workingOf conf0 wdFar windsS 1 emptyRefs).headD (some 0, default)).1 = none := by
  refine ⟨rfl, rfl, rfl, by norm_num, ?_⟩
  norm_num [workingOf, setWindsLayers, wdFar, metarFar, conf0, synthAltPair, transition,
    emptyRefs, tset, tagLayers, windsS, randPattern]

/-- C3 (amended): setWinds prepends the synthetic surface layer exactly
when the snapshot has a metar section with a wind entry; the station
distance is never consulted (the distance gate exists only in setClouds). -/
theorem setWinds_metar_injection_amended (conf : WConf) (wd : WeatherData)
    (winds : List WindLayer) (elapsed : ℚ) (r : TransRefs) :
    (metarHasWind wd = false → workingOf conf wd winds elapsed r = tagLayers 0 winds) ∧
    (metarHasWind wd = true →
      ∃ l rest, workingOf conf wd winds elapsed r = (none, l) :: rest ∧
        ∀ p ∈ rest, p.1.isSome = true) := by
  obtain ⟨mo, gc⟩ := wd
  cases mo with
  | none =>
    refine ⟨fun _ => rfl, fun hmw => ?_⟩
    simp [metarHasWind] at hmw
  | some m =>
    obtain ⟨el, di, wi, vw, te, cl⟩ := m
    cases wi with
    | none =>
      refine ⟨fun _ => rfl, fun hmw => ?_⟩
      simp [metarHasWind] at hmw
    | some hsg =>
      refine ⟨fun hmw => ?_, fun _ => ?_⟩
      · simp [metarHasWind] at hmw
      · unfold workingOf setWindsLayers
        dsimp only
        refine ⟨_, _, rfl, ?_⟩
        intro p hp
        split at hp
        · cases winds with
          | nil => simp [tagLayers] at hp
          | cons w0 ws =>
            simp only [tagLayers, List.tail_cons] at hp
            obtain ⟨j, hj, _⟩ := tagLayers_tags ws 1 p hp
            simp [hj]
        · obtain ⟨j, hj, _⟩ := tagLayers_tags winds 0 p hp
          simp [hj]

/-- Witness for C3 (amended): the far-station snapshot does get the
synthetic head layer. -/
theorem setWinds_metar_injection_amended_witness :
    ∃ l rest, workingOf conf0 wdFar windsS 1 emptyRefs = (none, l) :: rest ∧
      ∀ p ∈ rest, p.1.isSome = true :=
  (setWinds_metar_injection_amended conf0 wdFar windsS 1 emptyRefs).2
    (by with_unfolding_all decide)

/-- C4 counterexample: with station elevation 2000 and AGL offset 900 the
synthetic layer sits at 2900; the lowest forecast layer at 1000 is 1900
away — farther than the AGL offset — yet setWinds drops it, because the
test at src/PI_noaaWeather.py line 242 is the one-sided comparison
winds[0][0] < alt + metar_agl_limit, not a distance. -/
theorem setWinds_drop_counterexample :
    (synthAltPair conf0 metarHigh 1 emptyRefs).1 = 2900 ∧
    conf0.metar_agl_limit = 900 ∧
    |(1000 : ℚ) - 2900| > 900 ∧
    windsDrop.map (fun l => l.alt) = [1000, 5000] ∧
    some 0 ∉ (workingOf conf0 wdHigh windsDrop 1 emptyRefs).map (fun p => p.1) := by
  refine ⟨?_, rfl, by norm_num, by simp [windsDrop], ?_⟩
  · norm_num [synthAltPair, transition, emptyRefs, metarHigh, conf0]
  · norm_num [workingOf, setWindsLayers, wdHigh, metarHigh, conf0, synthAltPair, transition,
      emptyRefs, tset, tagLayers, windsDrop, randPattern]
    simp

/-- C4 (amended): when the synthetic layer is injected, the lowest
forecast layer is dropped exactly when more than one forecast layer exists
and its altitude is below the transitioned synthetic altitude plus the AGL
offset (a one-sided comparison, not a distance). -/
theorem setWinds_drop_amended (conf : WConf) (m : MetarData) (w : ℚ × ℚ × ℚ)
    (gc : List (ℚ × ℚ × ℚ)) (winds : List WindLayer) (elapsed : ℚ) (r : TransRefs)
    (hm : m.wind = some w) (hw : winds ≠ []) :
    ((winds.length > 1 ∧
        (winds.headD default).alt < (synthAltPair conf m elapsed r).1 + conf.metar_agl_limit) ↔
      some 0 ∉ (workingOf conf ⟨some m, gc⟩ winds elapsed r).map (fun p => p.1)) := by
  obtain ⟨el, di, wi, vw, te, cl⟩ := m
  dsimp only at hm
  subst hm
  unfold workingOf setWindsLayers
  dsimp only
  constructor
  · intro hcond
    rw [if_pos hcond]
    cases winds with
    | nil => exact absurd rfl hw
    | cons w0 ws =>
      simp only [tagLayers, List.tail_cons, List.map_cons, List.mem_cons]
      intro hmem
      rcases hmem with h | h
      · exact Option.noConfusion h
      · obtain ⟨p, hp, hp0⟩ := List.mem_map.mp h
        obtain ⟨j, hj, hij⟩ := tagLayers_tags ws 1 p hp
        rw [hj] at hp0
        simp only [Option.some.injEq] at hp0
        omega
  · intro hnot
    by_contra hcond
    rw [if_neg hcond] at hnot
    cases winds with
    | nil => exact absurd rfl hw
    | cons w0 ws =>
      apply hnot
      simp [tagLayers]

/-- Witness for C4 (amended): the high-station run does drop the lowest
layer. -/
theorem setWinds_drop_amended_witness :
    some 0 ∉ (workingOf conf0 ⟨some metarHigh, []⟩ windsDrop 1 emptyRefs).map (fun p => p.1) :=
  (setWinds_drop_amended conf0 metarHigh (200, 10, 14) [] windsDrop 1 emptyRefs rfl
    (by with_unfolding_all decide)).mp (by with_unfolding_all decide)

/-- C2 counterexample: over three consecutive setWinds calls on three
forecast layers (aircraft at 2500 m, then 1500 m, then 2500 m) the bracket
index pair changes from (1,2) to (2,2) between the second and third call,
yet the third call clears nothing — the reference "1-hdg" created by the
second call survives — because the code only compares the top index
(src/PI_noaaWeather.py line 259). -/
theorem setWinds_clear_counterexample :
    bracketOf 1500 (workingOf conf0 wd0 winds3 1 stClear1.transRefs) = (some 1, 2) ∧
    bracketOf 2500 (workingOf conf0 wd0 winds3 1 stClear2.transRefs) = (some 2, 2) ∧
    ((some 1, 2) : Option ℕ × ℕ) ≠ ((some 2, 2) : Option ℕ × ℕ) ∧
    (stClear3.transRefs ("1", "hdg")).isSome = true ∧
    stClear3.windAlts = 2 := by
  decide

/-- C2 (amended): a setWinds call clears transition state exactly when
the new top bracket index differs from the stored windAlts of the
previous call: if the top index is unchanged, every existing reference
key survives (even when the bottom index changed); if it differs, every
surviving key belongs to the new bottom or top layer id. -/
theorem setWinds_clear_amended (B : BlendWeight) (conf : WConf) (wd : WeatherData)
    (winds : List WindLayer) (alt elapsed : ℚ) (st : WState)
    (hne : (workingOf conf wd winds elapsed st.transRefs).isEmpty = false) :
    (st.windAlts = ((bracketOf alt (workingOf conf wd winds elapsed st.transRefs)).2 : ℤ) →
      ∀ k, (st.transRefs k).isSome = true →
        (((setWinds B conf wd winds alt elapsed st).2).transRefs k).isSome = true) ∧
    (st.windAlts ≠ ((bracketOf alt (workingOf conf wd winds elapsed st.transRefs)).2 : ℤ) →
      ∀ k, (((setWinds B conf wd winds alt elapsed st).2).transRefs k).isSome = true →
        k.1 = bIdxStr (bracketOf alt (workingOf conf wd winds elapsed st.transRefs)).1 ∨
        k.1 = toString (bracketOf alt (workingOf conf wd winds elapsed st.transRefs)).2) := by
  constructor
  · intro hEq k hk
    have hcond : ¬(st.windAlts ≠ ((bracketOf alt (workingOf conf wd winds elapsed st.transRefs)).2 : ℤ)) :=
      fun hcon => hcon hEq
    simp only [setWinds, hne, Bool.false_eq_true, if_false, if_neg hcond]
    have hk0 := refsAfterLayers_mono conf wd winds elapsed st.transRefs k hk
    split
    · split
      · exact transWindLayer_mono _ _ _ _ _ _ (transWindLayer_mono _ _ _ _ _ _ hk0)
      · exact transWindLayer_mono _ _ _ _ _ _ hk0
    · exact transWindLayer_mono _ _ _ _ _ _ hk0
  · intro hNe k
    simp only [setWinds, hne, Bool.false_eq_true, if_false, if_pos hNe]
    rcases hb : (bracketOf alt (workingOf conf wd winds elapsed st.transRefs)).1 with _ | bi <;>
      simp only [hb]
    · intro hk
      rcases transWindLayer_sub _ _ _ _ _ _ hk with h | h
      · exact Or.inr h
      · have hmem := clearRefs_sub _ _ _ h
        simpa [bIdxStr] using hmem
    · split
      · intro hk
        rcases transWindLayer_sub _ _ _ _ _ _ hk with h | h
        · exact Or.inl h
        rcases transWindLayer_sub _ _ _ _ _ _ h with h2 | h2
        · exact Or.inr h2
        · have hmem := clearRefs_sub _ _ _ h2
          simpa [bIdxStr] using hmem
      · intro hk
        rcases transWindLayer_sub _ _ _ _ _ _ hk with h | h
        · exact Or.inr h
        · have hmem := clearRefs_sub _ _ _ h
          simpa [bIdxStr] using hmem

/-- Witness for C2 (amended): with an unchanged top index, a foreign
reference key (layer id 9) survives the call. -/
theorem setWinds_clear_amended_witness :
    ((setWinds linearBlend conf0 wd0 winds3 2500 1 stWit).2.transRefs ("9", "hdg")).isSome
      = true :=
  (setWinds_clear_amended linearBlend conf0 wd0 winds3 2500 1 stWit (by decide)).1 (by decide)
    ("9", "hdg") (by decide)

end NoaaWeather
